import Mathlib

/-!
# hosts-studio launchers

A shallow embedding of the two launcher programs of the repository,
`apprun.c` (the Launcher) and `bypass_noexec.c` (the Noexec-Bypass Launcher),
followed by the properties of their path construction, their exec attempts and
their failure exits.

The programs are straight-line sequences of libc calls.  Every call that
observes the surroundings (environment, working directory, user id, process
id, shell commands, process-image replacement) reads its answer from a `World`;
every call that acts on the surroundings is recorded as an `Event`.  A run of
`main` is the list of events it performs, in order, with the way it ends.
-/

namespace HostsStudio

/-! ## Strings and libc -/

/-- The contents of a NUL-terminated C string: one `Char` stands for one `char`
(byte) before the terminator. -/
abbrev CStr := List Char

/-- The call `snprintf(buf, size, fmt, ...)`: `formatted` is the fully expanded
output, of which at most `size - 1` bytes are stored before the terminator. -/
def snprintf (size : Nat) (formatted : CStr) : CStr :=
  formatted.take (size - 1)

/-- The conversion `%d` of printf applied to an `int`. -/
def fmtInt (i : Int) : CStr :=
  if i < 0 then '-' :: Nat.toDigits 10 i.natAbs else Nat.toDigits 10 i.natAbs

/-- The bytes `fgets` stores when `room` bytes of space are left: it stops after
a newline, at end of input, or when the space is used up. -/
def fgetsAux : Nat → CStr → CStr
  | 0, _ => []
  | _ + 1, [] => []
  | room + 1, c :: cs => if c = '\n' then [c] else c :: fgetsAux room cs

/-- The call `fgets(buf, size, fp)` on a stream whose remaining content is
`stream`: `none` is the NULL returned when end of input comes before any byte. -/
def fgets (size : Nat) (stream : CStr) : Option CStr :=
  match stream with
  | [] => none
  | _ :: _ => some (fgetsAux (size - 1) stream)

/-- The call `strcspn(s, reject)`: the length of the longest initial segment of
`s` without a byte of `reject`. -/
def strcspn (s reject : CStr) : Nat :=
  (s.takeWhile fun c => !reject.contains c).length

/-! ## The surroundings of a run -/

/-- The shell command `cp -r '<d>/usr' '<d>'`, which copies the directory
`<d>/usr` into the directory `<d>`, that is, onto itself. -/
def selfCopyCmd (d : CStr) : CStr :=
  "cp -r \x27".toList ++ d ++ "/usr\x27 \x27".toList ++ d ++ "\x27".toList

/-- What the libc calls of the two programs observe. -/
structure World where
  /-- The result of `getenv(name)`; `none` is NULL. -/
  getenv : CStr → Option CStr
  /-- The name of the current working directory; `none` when it cannot be
  determined whatever the buffer. -/
  cwd : Option CStr
  /-- The result of `getuid()`. -/
  uid : Nat
  /-- The result of `getpid()`. -/
  pid : Int
  /-- The value `getpid()` returns is an `int`. -/
  pid_range : -2147483648 ≤ pid ∧ pid ≤ 2147483647
  /-- The string `argv[0]`; the program is started with a non-empty argument
  vector. -/
  argv0 : CStr
  /-- The call `popen(cmd, "r")`: `none` is NULL, otherwise everything the
  command writes to its standard output. -/
  popen : CStr → Option CStr
  /-- The value returned by `system(cmd)`. -/
  system : CStr → Int
  /-- The utility `cp` does not copy a directory onto itself: for an absolute
  directory name `d` without an apostrophe, `cp -r '<d>/usr' '<d>'` fails,
  whether `<d>/usr` exists (source and target are the same file) or not. -/
  cp_onto_itself : ∀ d : CStr, d.head? = some '/' → Char.ofNat 39 ∉ d →
    system (selfCopyCmd d) ≠ 0
  /-- The bytes a `%s` conversion finds in the array `cwd` of apprun.c when the
  `snprintf` of the given source line reads it through `here`.  The block of
  `cwd` has ended by then, so the program does not determine these bytes. -/
  dead_cwd : Nat → CStr
  /-- Whether `execl(path, arg0, ..., NULL)` replaces the process image. -/
  execl : CStr → List CStr → Bool
  /-- Whether `execvp(file, argv)` replaces the process image. -/
  execvp : CStr → List CStr → Bool

/-- The call `getcwd(buf, size)`: it fails when the directory name and its
terminator do not fit in `size` bytes. -/
def getcwd (w : World) (size : Nat) : Option CStr :=
  match w.cwd with
  | some d => if d.length + 1 ≤ size then some d else none
  | none => none

/-- An action of a program on its surroundings. -/
inductive Event where
  | stdout (text : CStr)
  | stderr (text : CStr)
  | perror (text : CStr)
  | popen (cmd : CStr)
  | system (cmd : CStr)
  | mkdir (path : CStr) (mode : Nat)
  | setenv (name value : CStr) (overwrite : Int)
  | execl (path : CStr) (args : List CStr)
  | execvp (file : CStr) (args : List CStr)
  deriving DecidableEq

/-- How a run ends: the process image was replaced, or `main` returned. -/
inductive Outcome where
  | replaced
  | exit (status : Int)
  deriving DecidableEq

/-- A run: the events performed, in order, and the way the run ends. -/
abbrev Run := List Event × Outcome

/-- Perform one action, then continue with `k`. -/
def emit (e : Event) (k : Run) : Run := (e :: k.1, k.2)

/-- The statement `return status;` of `main`. -/
def ret (status : Int) : Run := ([], Outcome.exit status)

/-- The call `execl(path, args..., NULL)` followed by `k`: the rest of the
program runs only when the call returns, that is, when it failed. -/
def tryExecl (w : World) (path : CStr) (args : List CStr) (k : Run) : Run :=
  if w.execl path args then ([Event.execl path args], Outcome.replaced)
  else emit (Event.execl path args) k

/-- The call `execvp(file, args)` followed by `k`. -/
def tryExecvp (w : World) (file : CStr) (args : List CStr) (k : Run) : Run :=
  if w.execvp file args then ([Event.execvp file args], Outcome.replaced)
  else emit (Event.execvp file args) k

/-! ### Projections of a trace -/

/-- The process-image replacement attempts of a trace, in order. -/
def execs (tr : List Event) : List Event :=
  tr.filter fun e =>
    match e with
    | Event.execl _ _ => true
    | Event.execvp _ _ => true
    | _ => false

/-- The `mkdir` calls of a trace. -/
def mkdirs (tr : List Event) : List Event :=
  tr.filter fun e =>
    match e with
    | Event.mkdir _ _ => true
    | _ => false

/-- The `setenv` calls of a trace. -/
def setenvs (tr : List Event) : List Event :=
  tr.filter fun e =>
    match e with
    | Event.setenv _ _ _ => true
    | _ => false

/-- The recursive copies of a trace: the `system` calls running `cp -r`. -/
def copies (tr : List Event) : List Event :=
  tr.filter fun e =>
    match e with
    | Event.system cmd => "cp -r ".toList.isPrefixOf cmd
    | _ => false

/-! ## apprun.c -/

namespace Apprun

/-- What the pointer `here` points to after lines 8-17: a string that lives
until `main` returns, or the array `cwd`, whose block ends at line 17. -/
inductive Here where
  | live (s : CStr)
  | dead
  deriving DecidableEq

/-- The pointer `here` after lines 8-17. -/
def here (w : World) : Here :=
  match w.getenv "APPDIR".toList with
  | some a => Here.live a
  | none =>
    match getcwd w 1024 with
    | some _ => Here.dead
    | none => Here.live ".".toList

/-- The string the `snprintf` of source line `line` (24, 25 or 26) reads
through `here`. -/
def hereAt (w : World) (line : Nat) : CStr :=
  match here w with
  | Here.live s => s
  | Here.dead => w.dead_cwd line

/-- The buffer `python_path` after line 24. -/
def python_path (here : CStr) : CStr :=
  snprintf 2048 (here ++ "/usr/bin/python3".toList)

/-- The buffer `script_path` after line 25. -/
def script_path (here : CStr) : CStr :=
  snprintf 2048 (here ++ "/usr/share/hosts-studio/hosts_studio.py".toList)

/-- The buffer `ld_path` after line 26. -/
def ld_path (here : CStr) : CStr :=
  snprintf 2048 (here ++ "/usr/lib".toList)

/-- The expression `getenv(name) ? getenv(name) : dflt`. -/
def getenvOr (w : World) (name dflt : CStr) : CStr :=
  match w.getenv name with
  | some v => v
  | none => dflt

/-- The array `pkexec_args` of lines 40-49, without its NULL. -/
def pkexec_args (w : World) (python_path script_path : CStr) : List CStr :=
  [ "pkexec".toList,
    "env".toList,
    "DISPLAY".toList, getenvOr w "DISPLAY".toList ":0".toList,
    "XAUTHORITY".toList, getenvOr w "XAUTHORITY".toList "".toList,
    "DBUS_SESSION_BUS_ADDRESS".toList,
      getenvOr w "DBUS_SESSION_BUS_ADDRESS".toList "".toList,
    python_path,
    script_path ]

/-- The array `gksudo_args` of lines 54-60. -/
def gksudo_args (python_path script_path : CStr) : List CStr :=
  ["gksudo".toList, "--".toList, python_path, script_path]

/-- The array `kdesudo_args` of lines 65-71. -/
def kdesudo_args (python_path script_path : CStr) : List CStr :=
  ["kdesudo".toList, "--".toList, python_path, script_path]

/-- The first line written to stderr when every helper failed. -/
def needRootMsg : CStr :=
  "This application requires root privileges to modify /etc/hosts.\n".toList

/-- The second line written to stderr when every helper failed (line 77). -/
def sudoHintMsg (argv0 : CStr) : CStr :=
  "Please run with: sudo DISPLAY=$DISPLAY XAUTHORITY=$XAUTHORITY ".toList
    ++ argv0 ++ "\n".toList

/-- The function `main` of apprun.c. -/
def main (w : World) : Run :=
  let py := python_path (hereAt w 24)
  let sc := script_path (hereAt w 25)
  emit (Event.setenv "LD_LIBRARY_PATH".toList (ld_path (hereAt w 26)) 1) <|
  if w.uid = 0 then
    tryExecl w py ["python3".toList, sc] <|
    emit (Event.perror "Failed to execute python3".toList) <|
    ret 1
  else
    tryExecvp w "pkexec".toList (pkexec_args w py sc) <|
    tryExecvp w "gksudo".toList (gksudo_args py sc) <|
    tryExecvp w "kdesudo".toList (kdesudo_args py sc) <|
    emit (Event.stderr needRootMsg) <|
    emit (Event.stderr (sudoHintMsg w.argv0)) <|
    ret 1

end Apprun

/-! ## bypass_noexec.c -/

namespace Bypass

/-- The constant `MAX_PATH`. -/
def MAX_PATH : Nat := 4096

/-- The constant `TEMP_DIR`. -/
def TEMP_DIR : CStr := "/tmp/hosts-studio".toList

/-- The first command of `is_noexec_mount` (line 20). -/
def dfCmd (path : CStr) : CStr :=
  snprintf MAX_PATH ("df ".toList ++ path ++ " | tail -1 | awk \x27\x7bprint $6\x7d\x27".toList)

/-- The buffer `mount_point` after lines 24-25: the line read by `fgets`, cut
at its first newline. -/
def cutNewline (line : CStr) : CStr :=
  line.take (strcspn line "\n".toList)

/-- The second command of `is_noexec_mount` (line 29). -/
def grepCmd (mount_point : CStr) : CStr :=
  snprintf MAX_PATH
    ("mount | grep \x27".toList ++ mount_point ++ "\x27 | grep -q noexec".toList)

/-- The function `is_noexec_mount`: the events it performs and whether the
value it returns is non-zero. -/
def is_noexec_mount (w : World) (path : CStr) : List Event × Bool :=
  match w.popen (dfCmd path) with
  | none => ([Event.popen (dfCmd path)], false)
  | some out =>
    match fgets MAX_PATH out with
    | some line =>
      ([Event.popen (dfCmd path), Event.system (grepCmd (cutNewline line))],
        decide (w.system (grepCmd (cutNewline line)) = 0))
    | none => ([Event.popen (dfCmd path)], false)

/-- The command built by `copy_directory` (line 39). -/
def cpCmd (src dst : CStr) : CStr :=
  snprintf (MAX_PATH * 2)
    ("cp -r \x27".toList ++ src ++ "\x27 \x27".toList ++ dst ++ "\x27".toList)

/-- The function `copy_directory`: the event it performs and the value it
returns. -/
def copy_directory (w : World) (src dst : CStr) : List Event × Int :=
  ([Event.system (cpCmd src dst)], w.system (cpCmd src dst))

/-- The pointer `here` after lines 51-59. -/
def here (w : World) : CStr :=
  match w.getenv "APPDIR".toList with
  | some a => a
  | none =>
    match getcwd w MAX_PATH with
    | some d => d
    | none => ".".toList

/-- The buffer `appdir` after line 61. -/
def appdir (here : CStr) : CStr :=
  snprintf MAX_PATH here

/-- The buffer `temp_dir` after line 68. -/
def temp_dir (pid : Int) : CStr :=
  snprintf MAX_PATH (TEMP_DIR ++ "-".toList ++ fmtInt pid)

/-- The buffer `python_path` after line 72: the source of the copy. -/
def copy_src (appdir : CStr) : CStr :=
  snprintf MAX_PATH (appdir ++ "/usr".toList)

/-- The buffer `python_path` after line 86 (with the staging directory for
`root`) and after line 95 (with `appdir`). -/
def python_path (root : CStr) : CStr :=
  snprintf MAX_PATH (root ++ "/usr/bin/python3".toList)

/-- The buffer `script_path` after line 87 and after line 96. -/
def script_path (root : CStr) : CStr :=
  snprintf MAX_PATH (root ++ "/usr/share/hosts-studio/hosts_studio.py".toList)

/-- The buffer `ld_path` after line 82 and after line 100. -/
def ld_path (root : CStr) : CStr :=
  snprintf MAX_PATH (root ++ "/usr/lib".toList)

/-- The tail shared by both branches of `main`: set the library path, try to
replace the process image, report the failure (lines 82-91 and 95-105). -/
def launch (w : World) (root : CStr) : Run :=
  emit (Event.setenv "LD_LIBRARY_PATH".toList (ld_path root) 1) <|
  tryExecl w (python_path root) ["python3".toList, script_path root] <|
  emit (Event.perror "Failed to execute python3".toList) <|
  ret 1

/-- The function `main` of bypass_noexec.c. -/
def main (w : World) : Run :=
  let a := appdir (here w)
  let q := is_noexec_mount w a
  if q.2 then
    let t := temp_dir w.pid
    let c := copy_directory w (copy_src a) t
    let pre := q.1 ++
      [Event.stdout "Detected noexec mount, copying to writable location...\n".toList,
       Event.mkdir t 0o755] ++ c.1
    if c.2 ≠ 0 then
      (pre ++ [Event.stderr "Failed to copy files to temp directory\n".toList],
        Outcome.exit 1)
    else
      (pre ++ (launch w t).1, (launch w t).2)
  else
    (q.1 ++ (launch w a).1, (launch w a).2)

end Bypass

/-! ## The utilities behind the shell commands

The claims about `is_noexec_mount` and about the arguments handed to `pkexec`
are stated relative to a description of what `df`, `mount`, `grep` and `env`
do.  These descriptions are given here. -/

/-- One mounted filesystem. -/
structure Mount where
  device : CStr
  dir : CStr
  fstype : CStr
  opts : List CStr

/-- The line `mount` prints for a mounted filesystem. -/
def Mount.line (m : Mount) : CStr :=
  m.device ++ " on ".toList ++ m.dir ++ " type ".toList ++ m.fstype
    ++ " (".toList ++ ",".toList.intercalate m.opts ++ ")".toList

/-- Whether `path` names `dir` or something below it. -/
def underDir (dir path : CStr) : Bool :=
  dir = "/".toList || path = dir || (dir ++ "/".toList).isPrefixOf path

/-- The filesystem backing `path`: the mount with the longest mount directory
at or above `path`, the latest one among equals. -/
def backing (table : List Mount) (path : CStr) : Option Mount :=
  table.foldl
    (fun best m =>
      if underDir m.dir path && best.all (fun b => b.dir.length ≤ m.dir.length)
      then some m else best)
    none

/-- Whether the filesystem backing `path` has `noexec` among its options. -/
def backingNoexec (table : List Mount) (path : CStr) : Bool :=
  match backing table path with
  | some m => m.opts.contains "noexec".toList
  | none => false

/-- Whether `pat` occurs in `s` as a substring. -/
def hasSub (pat s : CStr) : Bool :=
  s.tails.any fun t => pat.isPrefixOf t

/-- The part of `s` between the prefix `pre` and the suffix `suf`. -/
def between (pre suf s : CStr) : Option CStr :=
  if pre.isPrefixOf s && suf.isSuffixOf s && decide (pre.length + suf.length ≤ s.length)
  then some ((s.drop pre.length).take (s.length - pre.length - suf.length))
  else none

/-- The output of the pipeline `df <path> | tail -1 | awk '{print $6}'`: the
mount directory of the filesystem backing the path, on a line of its own. -/
def shellPopen (table : List Mount) (cmd : CStr) : Option CStr :=
  match between "df ".toList " | tail -1 | awk \x27\x7bprint $6\x7d\x27".toList cmd with
  | some path =>
    match backing table path with
    | some m => some (m.dir ++ "\n".toList)
    | none => some []
  | none => none

/-- The status of `mount | grep '<pat>' | grep -q noexec`: zero exactly when
some line of the mount listing contains `pat` as a substring and also contains
`noexec`. -/
def shellSystem (table : List Mount) (cmd : CStr) : Int :=
  match between "mount | grep \x27".toList "\x27 | grep -q noexec".toList cmd with
  | some pat =>
    if table.any fun m => hasSub pat m.line && hasSub "noexec".toList m.line
    then 0 else 256
  | none => 32512

/-- A world whose shell commands are answered from a mount table. -/
def mountWorld (table : List Mount) : World where
  getenv := fun _ => none
  cwd := none
  uid := 1000
  pid := 1
  pid_range := by decide
  argv0 := []
  popen := shellPopen table
  system := shellSystem table
  cp_onto_itself := by
    intro d _ _
    have hb : between "mount | grep \x27".toList "\x27 | grep -q noexec".toList
        (selfCopyCmd d) = none := by
      have hc : selfCopyCmd d
          = 'c' :: ("p -r \x27".toList ++ d ++ "/usr\x27 \x27".toList ++ d ++ "\x27".toList) :=
        rfl
      rw [hc]
      rfl
    unfold shellSystem
    rw [hb]
    exact (by decide : (32512 : Int) ≠ 0)
  dead_cwd := fun _ => []
  execl := fun _ _ => false
  execvp := fun _ _ => false

/-- The arguments of `env`, split as env does: the leading arguments of the
form NAME=VALUE are assignments, the first other argument is the command to run
and the arguments after it are the arguments of that command. -/
def envSplit : List CStr → List (CStr × CStr) × List CStr
  | [] => ([], [])
  | a :: rest =>
    if a.contains '=' then
      ((a.takeWhile (fun c => c != '='), (a.dropWhile (fun c => c != '=')).drop 1)
          :: (envSplit rest).1,
        (envSplit rest).2)
    else ([], a :: rest)

/-- What `pkexec` runs: `argv[1]` of pkexec onwards, the program followed by its
arguments. -/
def pkexecPayload (argv : List CStr) : List CStr :=
  argv.drop 1

/-! ## Sample worlds -/

/-- Whether `cmd` is `cp -r '<d>/usr' '<d>'` for some `d`. -/
def isSelfCopy (cmd : CStr) : Bool :=
  (List.range cmd.length).any fun n => cmd == selfCopyCmd ((cmd.drop 7).take n)

/-- A world for trying the programs: `APPDIR`, the working directory, the user
id, whether the mount command reports `noexec`, and the status of a `cp` that
does not copy a directory onto itself are given; the process id is 1234,
`DISPLAY` and `XAUTHORITY` are set, `DBUS_SESSION_BUS_ADDRESS` is not, and no
process-image replacement succeeds.  The dead array `cwd` of apprun.c still
holds the directory name when lines 24 and 25 read it and is empty when line 26
reads it, as in a build that gives `ld_path` the storage of `cwd`. -/
def sampleWorld (appdir cwd : Option CStr) (uid : Nat) (noexec : Bool)
    (cpStatus : Int) : World where
  getenv := fun name =>
    if name = "APPDIR".toList then appdir
    else if name = "DISPLAY".toList then some ":1".toList
    else if name = "XAUTHORITY".toList then some "/home/u/.Xauthority".toList
    else none
  cwd := cwd
  uid := uid
  pid := 1234
  pid_range := by decide
  argv0 := "./AppRun".toList
  popen := fun _ => some "/opt\n".toList
  system := fun cmd =>
    if "cp -r ".toList.isPrefixOf cmd then
      if isSelfCopy cmd then 256 else cpStatus
    else if noexec then 0 else 256
  cp_onto_itself := by
    intro d _ _
    have hp : "cp -r ".toList.isPrefixOf (selfCopyCmd d) = true := by
      have hc : selfCopyCmd d
          = "cp -r ".toList ++ ("\x27".toList ++ d ++ "/usr\x27 \x27".toList ++ d
              ++ "\x27".toList) := by
        simp [selfCopyCmd]
      rw [hc, List.isPrefixOf_iff_prefix]
      exact List.prefix_append _ _
    have hs : isSelfCopy (selfCopyCmd d) = true := by
      unfold isSelfCopy
      rw [List.any_eq_true]
      refine ⟨d.length, ?_, ?_⟩
      · rw [List.mem_range]
        simp [selfCopyCmd]
        omega
      · have hd : ((selfCopyCmd d).drop 7).take d.length = d := by
          have hc : selfCopyCmd d
              = "cp -r \x27".toList ++ (d ++ ("/usr\x27 \x27".toList ++ d ++ "\x27".toList)) := by
            simp [selfCopyCmd]
          rw [hc]
          have h7 : ("cp -r \x27".toList).length = 7 := rfl
          rw [← h7, List.drop_left, List.take_left]
        rw [hd]
        simp
    simp only [hp, hs, if_true]
    decide
  dead_cwd := fun line => if line = 26 then [] else cwd.getD []
  execl := fun _ _ => false
  execvp := fun _ _ => false

/-- A mount table in which `/` is mounted with execution allowed and `/tmp`
is mounted `noexec`. -/
def rootExecTmpNoexec : List Mount :=
  [ { device := "/dev/sda1".toList, dir := "/".toList, fstype := "ext4".toList,
      opts := ["rw".toList, "relatime".toList] },
    { device := "tmpfs".toList, dir := "/tmp".toList, fstype := "tmpfs".toList,
      opts := ["rw".toList, "nosuid".toList, "nodev".toList, "noexec".toList] } ]

/-- A mount table in which `/` is mounted with execution allowed and `/opt`
is mounted `noexec`. -/
def rootExecOptNoexec : List Mount :=
  [ { device := "/dev/sda1".toList, dir := "/".toList, fstype := "ext4".toList,
      opts := ["rw".toList, "relatime".toList] },
    { device := "/dev/sdb1".toList, dir := "/opt".toList, fstype := "ext4".toList,
      opts := ["rw".toList, "noexec".toList] } ]

/-- The bundle root as the specification words it: the value of `APPDIR` if
set, otherwise the current working directory if `getcwd`, given a buffer of
`size` bytes, succeeds, otherwise `.`. -/
def specRoot (w : World) (size : Nat) : CStr :=
  match w.getenv "APPDIR".toList with
  | some a => a
  | none =>
    match getcwd w size with
    | some d => d
    | none => ".".toList

/-! ## Lemmas on the libc model -/

theorem snprintf_of_le (size : Nat) (s : CStr) (h : s.length ≤ size - 1) :
    snprintf size s = s :=
  List.take_of_length_le h

theorem snprintf_length (size : Nat) (s : CStr) :
    (snprintf size s).length = min (size - 1) s.length := by
  simp [snprintf, List.length_take]

theorem fmtInt_length (i : Int) (h : -2147483648 ≤ i ∧ i ≤ 2147483647) :
    (fmtInt i).length ≤ 11 := by
  have hd : (Nat.toDigits 10 i.natAbs).length ≤ 10 :=
    Nat.toDigitsCore_length 10 (by decide) (i.natAbs + 1) i.natAbs 10 (by omega) (by decide)
  unfold fmtInt
  split <;> simp <;> omega

theorem fgetsAux_line (s : CStr) (room : Nat) (hn : '\n' ∉ s) (hl : s.length < room) :
    fgetsAux room (s ++ ['\n']) = s ++ ['\n'] := by
  induction s generalizing room with
  | nil =>
    cases room with
    | zero => omega
    | succ k => simp [fgetsAux]
  | cons c cs ih =>
    cases room with
    | zero => omega
    | succ k =>
      have hc : c ≠ '\n' := fun h => hn (by simp [h])
      have hcs : '\n' ∉ cs := fun h => hn (by simp [h])
      have hk : cs.length < k := by simpa using hl
      show fgetsAux (k + 1) (c :: (cs ++ ['\n'])) = c :: (cs ++ ['\n'])
      rw [fgetsAux, if_neg hc, ih k hcs hk]

theorem cutNewline_line (s : CStr) (hn : '\n' ∉ s) :
    Bypass.cutNewline (s ++ ['\n']) = s := by
  have ht : (s ++ ['\n']).takeWhile (fun c => !("\n".toList).contains c) = s := by
    induction s with
    | nil => rfl
    | cons c cs ih =>
      have hc : c ≠ '\n' := fun h => hn (by simp [h])
      have hcs : '\n' ∉ cs := fun h => hn (by simp [h])
      have hp : (!("\n".toList).contains c) = true := by simp [hc]
      show (c :: (cs ++ ['\n'])).takeWhile (fun c => !("\n".toList).contains c) = c :: cs
      rw [List.takeWhile_cons, if_pos hp, ih hcs]
  unfold Bypass.cutNewline strcspn
  rw [ht]
  simp

theorem between_append (pre suf x : CStr) : between pre suf (pre ++ x ++ suf) = some x := by
  have h1 : pre.isPrefixOf (pre ++ x ++ suf) = true := by
    rw [List.isPrefixOf_iff_prefix, List.append_assoc]
    exact List.prefix_append _ _
  have h2 : suf.isSuffixOf (pre ++ x ++ suf) = true := by
    rw [List.isSuffixOf_iff_suffix]
    exact List.suffix_append _ _
  unfold between
  rw [h1, h2]
  simp [List.append_assoc]

theorem toDigitsCore_chars (fuel n : Nat) (acc : List Char) (c : Char)
    (h : c ∈ Nat.toDigitsCore 10 fuel n acc) :
    c ∈ acc ∨ ∃ k, k < 10 ∧ c = Nat.digitChar k := by
  induction fuel generalizing n acc with
  | zero => exact Or.inl (by simpa [Nat.toDigitsCore] using h)
  | succ f ih =>
    simp only [Nat.toDigitsCore] at h
    split at h
    · rcases List.mem_cons.mp h with h1 | h1
      · exact Or.inr ⟨n % 10, Nat.mod_lt _ (by decide), h1⟩
      · exact Or.inl h1
    · rcases ih _ _ h with h1 | h1
      · rcases List.mem_cons.mp h1 with h2 | h2
        · exact Or.inr ⟨n % 10, Nat.mod_lt _ (by decide), h2⟩
        · exact Or.inl h2
      · exact Or.inr h1

theorem fmtInt_no_apostrophe (i : Int) : Char.ofNat 39 ∉ fmtInt i := by
  have hk : ∀ k, k < 10 → Char.ofNat 39 ≠ Nat.digitChar k := by
    intro k hk
    interval_cases k <;> decide
  have hd : ∀ n, Char.ofNat 39 ∉ Nat.toDigits 10 n := by
    intro n hm
    rcases toDigitsCore_chars _ _ _ _ hm with h1 | ⟨k, hlt, he⟩
    · simp at h1
    · exact hk k hlt he
  unfold fmtInt
  split
  · intro hm
    rcases List.mem_cons.mp hm with h1 | h1
    · exact absurd h1 (by decide)
    · exact hd _ h1
  · exact hd _

/-! ## Path construction -/

theorem apprun_script_path_truncated (r : CStr) (h : 2008 < r.length) :
    Apprun.script_path r ≠ r ++ "/usr/share/hosts-studio/hosts_studio.py".toList := by
  intro he
  have hl := congrArg List.length he
  simp [Apprun.script_path, snprintf_length] at hl
  omega

theorem bypass_script_path_truncated (r : CStr) (h : 4056 < r.length) :
    Bypass.script_path (Bypass.appdir r)
      ≠ r ++ "/usr/share/hosts-studio/hosts_studio.py".toList := by
  intro he
  have hl := congrArg List.length he
  simp [Bypass.script_path, Bypass.appdir, Bypass.MAX_PATH, snprintf_length] at hl
  omega

/-- C1, as amended: for every bundle root of at most 2008 bytes the Launcher's
interpreter and script paths are the root followed by the fixed suffixes, and
for every bundle root of at most 4056 bytes so are the in-place paths of the
Bypass Launcher, built from the copy of the root in `appdir`. -/
theorem paths_are_root_plus_suffix (r : CStr) :
    (r.length ≤ 2008 →
      Apprun.python_path r = r ++ "/usr/bin/python3".toList ∧
      Apprun.script_path r = r ++ "/usr/share/hosts-studio/hosts_studio.py".toList) ∧
    (r.length ≤ 4056 →
      Bypass.python_path (Bypass.appdir r) = r ++ "/usr/bin/python3".toList ∧
      Bypass.script_path (Bypass.appdir r)
        = r ++ "/usr/share/hosts-studio/hosts_studio.py".toList) := by
  refine ⟨fun h => ⟨?_, ?_⟩, fun h => ?_⟩
  · exact snprintf_of_le _ _ (by simp; omega)
  · exact snprintf_of_le _ _ (by simp; omega)
  · have ha : Bypass.appdir r = r :=
      snprintf_of_le _ _ (by simp [Bypass.MAX_PATH]; omega)
    rw [ha]
    exact ⟨snprintf_of_le _ _ (by simp [Bypass.MAX_PATH]; omega),
      snprintf_of_le _ _ (by simp [Bypass.MAX_PATH]; omega)⟩

/-- Witness of C1 as amended, at the bundle root `/opt/app`. -/
theorem paths_are_root_plus_suffix_witness :
    (Apprun.python_path "/opt/app".toList = "/opt/app/usr/bin/python3".toList ∧
      Apprun.script_path "/opt/app".toList
        = "/opt/app/usr/share/hosts-studio/hosts_studio.py".toList) ∧
    (Bypass.python_path (Bypass.appdir "/opt/app".toList)
        = "/opt/app/usr/bin/python3".toList ∧
      Bypass.script_path (Bypass.appdir "/opt/app".toList)
        = "/opt/app/usr/share/hosts-studio/hosts_studio.py".toList) :=
  ⟨(paths_are_root_plus_suffix "/opt/app".toList).1 (by decide),
   (paths_are_root_plus_suffix "/opt/app".toList).2 (by decide)⟩

/-- C1 fails as stated: with a bundle root of 2009 bytes the Launcher's script
path is not the root followed by the suffix, and with a bundle root of 4057
bytes neither is the in-place script path of the Bypass Launcher. -/
theorem paths_truncated_for_long_root :
    Apprun.script_path (List.replicate 2009 'a')
      ≠ List.replicate 2009 'a' ++ "/usr/share/hosts-studio/hosts_studio.py".toList ∧
    Bypass.script_path (Bypass.appdir (List.replicate 4057 'a'))
      ≠ List.replicate 4057 'a' ++ "/usr/share/hosts-studio/hosts_studio.py".toList := by
  constructor
  · exact apprun_script_path_truncated _ (by rw [List.length_replicate]; decide)
  · exact bypass_script_path_truncated _ (by rw [List.length_replicate]; decide)

/-- While `here` points to `APPDIR` or to `.`, a string of at most 2008 bytes,
none of the Launcher's three `snprintf` calls truncates: the interpreter path,
the script path and the value `LD_LIBRARY_PATH` is set to, with overwrite, are
that string followed by the fixed suffixes. -/
theorem launcher_paths_within_bound (w : World) (r : CStr)
    (hr : Apprun.here w = Apprun.Here.live r) (h : r.length ≤ 2008) :
    Apprun.python_path (Apprun.hereAt w 24) = r ++ "/usr/bin/python3".toList ∧
    Apprun.script_path (Apprun.hereAt w 25)
      = r ++ "/usr/share/hosts-studio/hosts_studio.py".toList ∧
    setenvs (Apprun.main w).1
      = [Event.setenv "LD_LIBRARY_PATH".toList (r ++ "/usr/lib".toList) 1] := by
  have hat : ∀ line, Apprun.hereAt w line = r := by
    intro line
    simp [Apprun.hereAt, hr]
  refine ⟨?_, ?_, ?_⟩
  · rw [hat]
    exact snprintf_of_le _ _ (by simp; omega)
  · rw [hat]
    exact snprintf_of_le _ _ (by simp; omega)
  · have hl : Apprun.ld_path r = r ++ "/usr/lib".toList :=
      snprintf_of_le _ _ (by simp; omega)
    rw [← hl]
    simp only [Apprun.main, emit, tryExecl, tryExecvp, ret, setenvs, hat]
    split_ifs <;> simp

/-- A root of 2009 bytes has a script path that is the concatenation without
its last byte: 2008 is the exact threshold. -/
theorem script_path_threshold :
    ∃ r : CStr, r.length = 2009 ∧
      Apprun.script_path r
        = (r ++ "/usr/share/hosts-studio/hosts_studio.py".toList).dropLast ∧
      Apprun.script_path r ≠ r ++ "/usr/share/hosts-studio/hosts_studio.py".toList := by
  refine ⟨List.replicate 2009 'a', List.length_replicate _ _, ?_, ?_⟩
  · generalize hr : List.replicate 2009 'a' = r
    have hlen : r.length = 2009 := by rw [← hr, List.length_replicate]
    rw [List.dropLast_eq_take]
    simp [Apprun.script_path, snprintf, hlen]
  · exact apprun_script_path_truncated _ (by rw [List.length_replicate]; decide)

/-- With `APPDIR` unset and a working directory that fits the 1024-byte buffer,
`here` points into the array `cwd`, which is dead when lines 24-26 read it. -/
theorem here_dead_of_cwd (w : World) (d : CStr)
    (hg : w.getenv "APPDIR".toList = none) (hc : w.cwd = some d)
    (hl : d.length ≤ 1023) :
    Apprun.here w = Apprun.Here.dead := by
  have h1 : d.length + 1 ≤ 1024 := by omega
  unfold Apprun.here getcwd
  simp only [hg, hc, if_pos h1]

/-- While `here` points into the dead array, the value `LD_LIBRARY_PATH` is set
to is built from whatever line 26 finds there, not from the directory name. -/
theorem dead_root_library_path (w : World) (h : Apprun.here w = Apprun.Here.dead) :
    setenvs (Apprun.main w).1
      = [Event.setenv "LD_LIBRARY_PATH".toList
          (snprintf 2048 (w.dead_cwd 26 ++ "/usr/lib".toList)) 1] := by
  have hat : Apprun.hereAt w 26 = w.dead_cwd 26 := by
    simp [Apprun.hereAt, h]
  simp only [Apprun.main, emit, tryExecl, tryExecvp, ret, setenvs, hat, Apprun.ld_path]
  split_ifs <;> simp

/-- C10 fails on the code: with `APPDIR` unset and the working directory
`/opt/app`, of 8 bytes, `here` points into the dead array `cwd`; in a build that
gives `ld_path` the storage of `cwd`, line 26 finds it empty and
`LD_LIBRARY_PATH` is set to `/usr/lib`, not to `/opt/app/usr/lib`. -/
theorem cwd_root_library_path_lost :
    (sampleWorld none (some "/opt/app".toList) 1000 false 0).cwd
      = some "/opt/app".toList ∧
    Apprun.here (sampleWorld none (some "/opt/app".toList) 1000 false 0)
      = Apprun.Here.dead ∧
    setenvs (Apprun.main (sampleWorld none (some "/opt/app".toList) 1000 false 0)).1
      = [Event.setenv "LD_LIBRARY_PATH".toList "/usr/lib".toList 1] ∧
    setenvs (Apprun.main (sampleWorld none (some "/opt/app".toList) 1000 false 0)).1
      ≠ [Event.setenv "LD_LIBRARY_PATH".toList "/opt/app/usr/lib".toList 1] := by
  decide

/-! ## Bundle root resolution -/

/-- C8, as amended: when `APPDIR` is set and has at most 4095 bytes, or `APPDIR`
is unset and `getcwd` fails in both programs (the working directory cannot be
read, or its name has 4096 bytes or more), the root the Bypass Launcher builds
its paths from equals the root the Launcher uses, which is `APPDIR` if set,
otherwise the working directory if `getcwd` succeeds, otherwise `.`, whichever
of the two buffer sizes `getcwd` is given. -/
theorem roots_agree (w : World)
    (h : (∃ a, w.getenv "APPDIR".toList = some a ∧ a.length ≤ 4095) ∨
      (w.getenv "APPDIR".toList = none ∧ ∀ d, w.cwd = some d → 4096 ≤ d.length)) :
    Apprun.here w = Apprun.Here.live (Bypass.appdir (Bypass.here w)) ∧
    (∀ line, Apprun.hereAt w line = Bypass.appdir (Bypass.here w)) ∧
    Bypass.appdir (Bypass.here w) = specRoot w 1024 ∧
    Bypass.appdir (Bypass.here w) = specRoot w Bypass.MAX_PATH := by
  have key : Apprun.here w = Apprun.Here.live (Bypass.appdir (Bypass.here w)) ∧
      Bypass.appdir (Bypass.here w) = specRoot w 1024 ∧
      Bypass.appdir (Bypass.here w) = specRoot w Bypass.MAX_PATH := by
    unfold Bypass.appdir Bypass.here Apprun.here specRoot getcwd
    rcases h with ⟨a, hg, hl⟩ | ⟨hg, hc⟩
    · have ha : snprintf Bypass.MAX_PATH a = a :=
        snprintf_of_le _ _ (by simp [Bypass.MAX_PATH]; omega)
      simp only [hg, ha]
      exact ⟨trivial, trivial, trivial⟩
    · cases hw : w.cwd with
      | none =>
        simp only [hg]
        exact ⟨rfl, rfl, rfl⟩
      | some d =>
        have := hc d hw
        have h1 : ¬ d.length + 1 ≤ 1024 := by omega
        have h2 : ¬ d.length + 1 ≤ Bypass.MAX_PATH := by simp [Bypass.MAX_PATH]; omega
        simp only [hg, if_neg h1, if_neg h2]
        exact ⟨rfl, rfl, rfl⟩
  refine ⟨key.1, fun line => ?_, key.2.1, key.2.2⟩
  simp [Apprun.hereAt, key.1]

/-- Witness of C8 as amended: `APPDIR` set to `/opt/app`. -/
theorem roots_agree_witness :
    Apprun.here (sampleWorld (some "/opt/app".toList) (some "/home/u".toList) 1000 false 0)
      = Apprun.Here.live "/opt/app".toList ∧
    Bypass.appdir
        (Bypass.here (sampleWorld (some "/opt/app".toList) (some "/home/u".toList) 1000 false 0))
      = "/opt/app".toList ∧
    specRoot (sampleWorld (some "/opt/app".toList) (some "/home/u".toList) 1000 false 0) 1024
      = "/opt/app".toList :=
  have h := roots_agree
    (sampleWorld (some "/opt/app".toList) (some "/home/u".toList) 1000 false 0)
    (Or.inl ⟨"/opt/app".toList, rfl, by decide⟩)
  ⟨h.1, rfl, h.2.2.1.symm⟩

/-- C8 fails as stated: with `APPDIR` unset and a working directory whose name
has 2000 bytes, `getcwd` fails in the Launcher, whose root is `.`, and succeeds
in the Bypass Launcher, whose root is the working directory. -/
theorem roots_differ_for_long_cwd :
    Apprun.here (sampleWorld none (some (List.replicate 2000 'a')) 1000 false 0)
      = Apprun.Here.live ".".toList ∧
    Bypass.appdir (Bypass.here (sampleWorld none (some (List.replicate 2000 'a')) 1000 false 0))
      = List.replicate 2000 'a' ∧
    Apprun.here (sampleWorld none (some (List.replicate 2000 'a')) 1000 false 0)
      ≠ Apprun.Here.live
          (Bypass.appdir
            (Bypass.here (sampleWorld none (some (List.replicate 2000 'a')) 1000 false 0))) := by
  generalize hr : List.replicate 2000 'a' = r
  have hlen : r.length = 2000 := by rw [← hr, List.length_replicate]
  have h1 : Apprun.here (sampleWorld none (some r) 1000 false 0)
      = Apprun.Here.live ".".toList := by
    simp [Apprun.here, getcwd, sampleWorld, hlen]
  have h2 : Bypass.appdir (Bypass.here (sampleWorld none (some r) 1000 false 0)) = r := by
    have hh : Bypass.here (sampleWorld none (some r) 1000 false 0) = r := by
      simp [Bypass.here, getcwd, sampleWorld, hlen, Bypass.MAX_PATH]
    rw [hh]
    exact snprintf_of_le _ _ (by simp [Bypass.MAX_PATH, hlen])
  refine ⟨h1, h2, ?_⟩
  rw [h1, h2]
  intro he
  injection he with he
  have := congrArg List.length he
  simp [hlen] at this

/-- The Launcher's `here` points to a live string equal to the Bypass
Launcher's root exactly when `APPDIR`, if set, fits the `appdir` buffer and,
if unset, `getcwd` fails in both programs. -/
theorem roots_agree_iff (w : World) :
    Apprun.here w = Apprun.Here.live (Bypass.appdir (Bypass.here w)) ↔
      match w.getenv "APPDIR".toList with
      | some a => a.length ≤ 4095
      | none =>
        match w.cwd with
        | some d => 4096 ≤ d.length
        | none => True := by
  unfold Bypass.appdir Bypass.here Apprun.here getcwd
  cases hg : w.getenv "APPDIR".toList with
  | some a =>
    simp only []
    constructor
    · intro he
      injection he with he
      have hl := congrArg List.length he
      rw [snprintf_length] at hl
      simp [Bypass.MAX_PATH] at hl
      exact hl
    · intro hl
      rw [snprintf_of_le _ _ (by simp [Bypass.MAX_PATH]; omega)]
  | none =>
    cases hc : w.cwd with
    | none => simp [snprintf, Bypass.MAX_PATH]
    | some d =>
      simp only []
      by_cases h1 : d.length + 1 ≤ 1024
      · simp only [if_pos h1]
        constructor
        · intro he; cases he
        · intro _; omega
      · by_cases h2 : d.length + 1 ≤ Bypass.MAX_PATH
        · simp only [if_neg h1, if_pos h2]
          have hd : snprintf Bypass.MAX_PATH d = d :=
            snprintf_of_le _ _ (by simp [Bypass.MAX_PATH] at h2 ⊢; omega)
          rw [hd]
          simp [Bypass.MAX_PATH] at h2
          constructor
          · intro he
            injection he with he
            have hl := congrArg List.length he
            simp at hl
            omega
          · intro h; omega
        · simp only [if_neg h1, if_neg h2]
          simp [Bypass.MAX_PATH] at h2
          constructor
          · intro _; omega
          · intro _; rfl

/-! ## The Launcher: exec attempts -/

/-- C4: when `getuid()` returns 0 the Launcher makes exactly one process-image
replacement attempt, the direct exec of the interpreter path with the
arguments `python3` and the script path; and when that exec fails the run ends
with exit status 1. -/
theorem root_execs_directly (w : World) (h : w.uid = 0) :
    execs (Apprun.main w).1
      = [Event.execl (Apprun.python_path (Apprun.hereAt w 24))
          ["python3".toList, Apprun.script_path (Apprun.hereAt w 25)]] ∧
    (w.execl (Apprun.python_path (Apprun.hereAt w 24))
        ["python3".toList, Apprun.script_path (Apprun.hereAt w 25)] = false →
      (Apprun.main w).2 = Outcome.exit 1) := by
  constructor
  · simp only [Apprun.main, emit, tryExecl, ret, execs, h]
    split_ifs <;> simp
  · intro hf
    simp only [Apprun.main, emit, tryExecl, ret, h, hf]
    simp

/-- Witness of C4: a root user with `APPDIR=/opt/app` and a missing
interpreter. -/
theorem root_execs_directly_witness :
    execs (Apprun.main (sampleWorld (some "/opt/app".toList) none 0 false 0)).1
      = [Event.execl "/opt/app/usr/bin/python3".toList
          ["python3".toList, "/opt/app/usr/share/hosts-studio/hosts_studio.py".toList]] ∧
    (Apprun.main (sampleWorld (some "/opt/app".toList) none 0 false 0)).2
      = Outcome.exit 1 :=
  ⟨(root_execs_directly (sampleWorld (some "/opt/app".toList) none 0 false 0) rfl).1,
   (root_execs_directly (sampleWorld (some "/opt/app".toList) none 0 false 0) rfl).2 rfl⟩

/-- C5: for a user other than root the helpers are tried in the order pkexec,
gksudo, kdesudo, each at most once and each only after every earlier one
failed; and when all three fail, the run ends with the two lines on stderr,
the second holding `argv[0]` after the suggested sudo command, with exit
status 1 and no further exec. -/
theorem helpers_tried_in_order (w : World) (h : w.uid ≠ 0) :
    (w.execvp "pkexec".toList (Apprun.pkexec_args w (Apprun.python_path (Apprun.hereAt w 24))
          (Apprun.script_path (Apprun.hereAt w 25))) = true →
      execs (Apprun.main w).1
        = [Event.execvp "pkexec".toList (Apprun.pkexec_args w (Apprun.python_path (Apprun.hereAt w 24))
          (Apprun.script_path (Apprun.hereAt w 25)))] ∧
      (Apprun.main w).2 = Outcome.replaced) ∧
    (w.execvp "pkexec".toList (Apprun.pkexec_args w (Apprun.python_path (Apprun.hereAt w 24))
          (Apprun.script_path (Apprun.hereAt w 25))) = false →
      w.execvp "gksudo".toList (Apprun.gksudo_args (Apprun.python_path (Apprun.hereAt w 24))
          (Apprun.script_path (Apprun.hereAt w 25))) = true →
      execs (Apprun.main w).1
        = [Event.execvp "pkexec".toList (Apprun.pkexec_args w (Apprun.python_path (Apprun.hereAt w 24))
          (Apprun.script_path (Apprun.hereAt w 25))),
           Event.execvp "gksudo".toList (Apprun.gksudo_args (Apprun.python_path (Apprun.hereAt w 24))
          (Apprun.script_path (Apprun.hereAt w 25)))] ∧
      (Apprun.main w).2 = Outcome.replaced) ∧
    (w.execvp "pkexec".toList (Apprun.pkexec_args w (Apprun.python_path (Apprun.hereAt w 24))
          (Apprun.script_path (Apprun.hereAt w 25))) = false →
      w.execvp "gksudo".toList (Apprun.gksudo_args (Apprun.python_path (Apprun.hereAt w 24))
          (Apprun.script_path (Apprun.hereAt w 25))) = false →
      w.execvp "kdesudo".toList (Apprun.kdesudo_args (Apprun.python_path (Apprun.hereAt w 24))
          (Apprun.script_path (Apprun.hereAt w 25))) = true →
      execs (Apprun.main w).1
        = [Event.execvp "pkexec".toList (Apprun.pkexec_args w (Apprun.python_path (Apprun.hereAt w 24))
          (Apprun.script_path (Apprun.hereAt w 25))),
           Event.execvp "gksudo".toList (Apprun.gksudo_args (Apprun.python_path (Apprun.hereAt w 24))
          (Apprun.script_path (Apprun.hereAt w 25))),
           Event.execvp "kdesudo".toList (Apprun.kdesudo_args (Apprun.python_path (Apprun.hereAt w 24))
          (Apprun.script_path (Apprun.hereAt w 25)))] ∧
      (Apprun.main w).2 = Outcome.replaced) ∧
    (w.execvp "pkexec".toList (Apprun.pkexec_args w (Apprun.python_path (Apprun.hereAt w 24))
          (Apprun.script_path (Apprun.hereAt w 25))) = false →
      w.execvp "gksudo".toList (Apprun.gksudo_args (Apprun.python_path (Apprun.hereAt w 24))
          (Apprun.script_path (Apprun.hereAt w 25))) = false →
      w.execvp "kdesudo".toList (Apprun.kdesudo_args (Apprun.python_path (Apprun.hereAt w 24))
          (Apprun.script_path (Apprun.hereAt w 25))) = false →
      (Apprun.main w).1
        = [Event.setenv "LD_LIBRARY_PATH".toList (Apprun.ld_path (Apprun.hereAt w 26)) 1,
           Event.execvp "pkexec".toList (Apprun.pkexec_args w (Apprun.python_path (Apprun.hereAt w 24))
          (Apprun.script_path (Apprun.hereAt w 25))),
           Event.execvp "gksudo".toList (Apprun.gksudo_args (Apprun.python_path (Apprun.hereAt w 24))
          (Apprun.script_path (Apprun.hereAt w 25))),
           Event.execvp "kdesudo".toList (Apprun.kdesudo_args (Apprun.python_path (Apprun.hereAt w 24))
          (Apprun.script_path (Apprun.hereAt w 25))),
           Event.stderr
             "This application requires root privileges to modify /etc/hosts.\n".toList,
           Event.stderr
             ("Please run with: sudo DISPLAY=$DISPLAY XAUTHORITY=$XAUTHORITY ".toList
               ++ w.argv0 ++ "\n".toList)] ∧
      (Apprun.main w).2 = Outcome.exit 1) := by
  refine ⟨fun h1 => ?_, fun h1 h2 => ?_, fun h1 h2 h3 => ?_, fun h1 h2 h3 => ?_⟩
  · simp only [Apprun.main, emit, tryExecvp, ret, execs, h, h1]
    simp
  · simp only [Apprun.main, emit, tryExecvp, ret, execs, h, h1, h2]
    simp
  · simp only [Apprun.main, emit, tryExecvp, ret, execs, h, h1, h2, h3]
    simp
  · simp only [Apprun.main, emit, tryExecvp, ret, h, h1, h2, h3, Apprun.needRootMsg,
      Apprun.sudoHintMsg]
    simp

/-- Witness of C5: an ordinary user, invoked as `./AppRun`, with no helper
installed. -/
theorem helpers_tried_in_order_witness :
    (Apprun.main (sampleWorld (some "/opt/app".toList) none 1000 false 0)).1
      = [Event.setenv "LD_LIBRARY_PATH".toList "/opt/app/usr/lib".toList 1,
         Event.execvp "pkexec".toList
           ["pkexec".toList, "env".toList, "DISPLAY".toList, ":1".toList,
            "XAUTHORITY".toList, "/home/u/.Xauthority".toList,
            "DBUS_SESSION_BUS_ADDRESS".toList, "".toList,
            "/opt/app/usr/bin/python3".toList,
            "/opt/app/usr/share/hosts-studio/hosts_studio.py".toList],
         Event.execvp "gksudo".toList
           ["gksudo".toList, "--".toList, "/opt/app/usr/bin/python3".toList,
            "/opt/app/usr/share/hosts-studio/hosts_studio.py".toList],
         Event.execvp "kdesudo".toList
           ["kdesudo".toList, "--".toList, "/opt/app/usr/bin/python3".toList,
            "/opt/app/usr/share/hosts-studio/hosts_studio.py".toList],
         Event.stderr
           "This application requires root privileges to modify /etc/hosts.\n".toList,
         Event.stderr
           "Please run with: sudo DISPLAY=$DISPLAY XAUTHORITY=$XAUTHORITY ./AppRun\n".toList] ∧
    (Apprun.main (sampleWorld (some "/opt/app".toList) none 1000 false 0)).2
      = Outcome.exit 1 :=
  (helpers_tried_in_order (sampleWorld (some "/opt/app".toList) none 1000 false 0)
    (by decide)).2.2.2 rfl rfl rfl

/-- C6 fails on the code: for the ordinary user of `sampleWorld`, whose
`DISPLAY` is `:1`, the first exec attempt hands pkexec an `env` invocation in
which, by the way env reads its arguments, no variable is assigned and the
command to run is `DISPLAY`, not the interpreter. -/
theorem pkexec_env_runs_DISPLAY :
    (execs (Apprun.main (sampleWorld (some "/opt/app".toList) none 1000 false 0)).1).head?
      = some (Event.execvp "pkexec".toList
          (Apprun.pkexec_args (sampleWorld (some "/opt/app".toList) none 1000 false 0)
            (Apprun.python_path "/opt/app".toList) (Apprun.script_path "/opt/app".toList))) ∧
    (pkexecPayload
        (Apprun.pkexec_args (sampleWorld (some "/opt/app".toList) none 1000 false 0)
          (Apprun.python_path "/opt/app".toList) (Apprun.script_path "/opt/app".toList))).head? = some "env".toList ∧
    envSplit
        ((pkexecPayload
          (Apprun.pkexec_args (sampleWorld (some "/opt/app".toList) none 1000 false 0)
            (Apprun.python_path "/opt/app".toList) (Apprun.script_path "/opt/app".toList))).drop 1)
      = ([], ["DISPLAY".toList, ":1".toList,
              "XAUTHORITY".toList, "/home/u/.Xauthority".toList,
              "DBUS_SESSION_BUS_ADDRESS".toList, "".toList,
              "/opt/app/usr/bin/python3".toList,
              "/opt/app/usr/share/hosts-studio/hosts_studio.py".toList]) := by
  decide

/-- Whatever the caller's variables are, the `env` invocation handed to pkexec
assigns no variable and runs the command `DISPLAY`. -/
theorem pkexec_env_assigns_nothing (w : World) (python_path script_path : CStr) :
    envSplit ((pkexecPayload (Apprun.pkexec_args w python_path script_path)).drop 1)
      = ([], (Apprun.pkexec_args w python_path script_path).drop 2) := by
  simp [Apprun.pkexec_args, pkexecPayload, envSplit]

/-! ## The Bypass Launcher -/

theorem grepCmd_not_cp (mp : CStr) : "cp -r ".toList.isPrefixOf (Bypass.grepCmd mp) = false := by
  have h : Bypass.grepCmd mp
      = 'm' :: List.take 4094 ("ount | grep \x27".toList ++ mp ++ "\x27 | grep -q noexec".toList) := rfl
  rw [h]
  rfl

theorem query_events (w : World) (p : CStr) :
    execs (Bypass.is_noexec_mount w p).1 = [] ∧ mkdirs (Bypass.is_noexec_mount w p).1 = [] ∧
    setenvs (Bypass.is_noexec_mount w p).1 = [] ∧ copies (Bypass.is_noexec_mount w p).1 = [] := by
  unfold Bypass.is_noexec_mount
  split
  · simp [execs, mkdirs, setenvs, copies]
  · split
    · refine ⟨by simp [execs], by simp [mkdirs], by simp [setenvs], ?_⟩
      simp only [copies, List.filter_cons, grepCmd_not_cp]
      simp
    · simp [execs, mkdirs, setenvs, copies]

theorem launch_events (w : World) (root : CStr) :
    execs (Bypass.launch w root).1
      = [Event.execl (Bypass.python_path root) ["python3".toList, Bypass.script_path root]] ∧
    mkdirs (Bypass.launch w root).1 = [] ∧
    setenvs (Bypass.launch w root).1
      = [Event.setenv "LD_LIBRARY_PATH".toList (Bypass.ld_path root) 1] ∧
    copies (Bypass.launch w root).1 = [] := by
  simp only [Bypass.launch, emit, tryExecl, ret, execs, mkdirs, setenvs, copies]
  split_ifs <;> simp

theorem is_noexec_mount_false_iff (w : World) (p : CStr) :
    (Bypass.is_noexec_mount w p).2 = false ↔
      w.popen (Bypass.dfCmd p) = none ∨
      (∃ out, w.popen (Bypass.dfCmd p) = some out ∧ fgets Bypass.MAX_PATH out = none) ∨
      (∃ out line, w.popen (Bypass.dfCmd p) = some out ∧
        fgets Bypass.MAX_PATH out = some line ∧
        w.system (Bypass.grepCmd (Bypass.cutNewline line)) ≠ 0) := by
  unfold Bypass.is_noexec_mount
  cases hp : w.popen (Bypass.dfCmd p) with
  | none => simp
  | some out =>
    cases hf : fgets Bypass.MAX_PATH out with
    | none => simp [hf]
    | some line => simp [hf]

theorem temp_dir_eq (pid : Int) (h : -2147483648 ≤ pid ∧ pid ≤ 2147483647) :
    Bypass.temp_dir pid = "/tmp/hosts-studio-".toList ++ fmtInt pid := by
  have hl := fmtInt_length pid h
  have : Bypass.temp_dir pid = Bypass.TEMP_DIR ++ "-".toList ++ fmtInt pid :=
    snprintf_of_le _ _ (by simp [Bypass.MAX_PATH, Bypass.TEMP_DIR]; omega)
  rw [this]
  simp [Bypass.TEMP_DIR]

theorem temp_dir_length (pid : Int) (h : -2147483648 ≤ pid ∧ pid ≤ 2147483647) :
    (Bypass.temp_dir pid).length ≤ 29 := by
  have hl := fmtInt_length pid h
  rw [temp_dir_eq pid h]
  simp
  omega

theorem main_of_not_noexec (w : World)
    (hq : (Bypass.is_noexec_mount w (Bypass.appdir (Bypass.here w))).2 = false) :
    (Bypass.main w).1
      = (Bypass.is_noexec_mount w (Bypass.appdir (Bypass.here w))).1
          ++ (Bypass.launch w (Bypass.appdir (Bypass.here w))).1 := by
  simp [Bypass.main, hq]

theorem main_of_staged (w : World)
    (hq : (Bypass.is_noexec_mount w (Bypass.appdir (Bypass.here w))).2 = true)
    (hc : (Bypass.copy_directory w (Bypass.copy_src (Bypass.appdir (Bypass.here w)))
            (Bypass.temp_dir w.pid)).2 = 0) :
    (Bypass.main w).1
      = (Bypass.is_noexec_mount w (Bypass.appdir (Bypass.here w))).1 ++
          [Event.stdout "Detected noexec mount, copying to writable location...\n".toList,
           Event.mkdir (Bypass.temp_dir w.pid) 0o755] ++
          (Bypass.copy_directory w (Bypass.copy_src (Bypass.appdir (Bypass.here w)))
            (Bypass.temp_dir w.pid)).1 ++
          (Bypass.launch w (Bypass.temp_dir w.pid)).1 := by
  simp only [Bypass.main, hq, if_true, hc, ne_eq, not_true_eq_false, if_false]

/-- C7: when noexec is detected and `copy_directory` returns a non-zero
status, the last thing the Bypass Launcher does is to write `Failed to copy
files to temp directory` to stderr; it exits with status 1, makes no exec
attempt and does not set `LD_LIBRARY_PATH`. -/
theorem copy_failure_is_fatal (w : World)
    (hq : (Bypass.is_noexec_mount w (Bypass.appdir (Bypass.here w))).2 = true)
    (hc : (Bypass.copy_directory w (Bypass.copy_src (Bypass.appdir (Bypass.here w)))
            (Bypass.temp_dir w.pid)).2 ≠ 0) :
    (Bypass.main w).1.getLast?
      = some (Event.stderr "Failed to copy files to temp directory\n".toList) ∧
    (Bypass.main w).2 = Outcome.exit 1 ∧
    execs (Bypass.main w).1 = [] ∧
    setenvs (Bypass.main w).1 = [] := by
  have hm : Bypass.main w
      = ((Bypass.is_noexec_mount w (Bypass.appdir (Bypass.here w))).1 ++
          [Event.stdout "Detected noexec mount, copying to writable location...\n".toList,
           Event.mkdir (Bypass.temp_dir w.pid) 0o755] ++
          (Bypass.copy_directory w (Bypass.copy_src (Bypass.appdir (Bypass.here w)))
            (Bypass.temp_dir w.pid)).1 ++
          [Event.stderr "Failed to copy files to temp directory\n".toList],
        Outcome.exit 1) := by
    simp only [Bypass.main, hq, if_true, hc, ne_eq, not_false_eq_true]
  obtain ⟨he, _, hs, _⟩ := query_events w (Bypass.appdir (Bypass.here w))
  rw [hm]
  refine ⟨List.getLast?_concat _, rfl, ?_, ?_⟩
  · simp only [execs, List.filter_append] at he ⊢
    rw [he]
    simp [Bypass.copy_directory]
  · simp only [setenvs, List.filter_append] at hs ⊢
    rw [hs]
    simp [Bypass.copy_directory]

/-- Witness of C7: bundle root `/opt/app` on a noexec mount, with a `cp` that
exits with status 1. -/
theorem copy_failure_is_fatal_witness :
    (Bypass.main (sampleWorld (some "/opt/app".toList) none 1000 true 256)).1.getLast?
      = some (Event.stderr "Failed to copy files to temp directory\n".toList) ∧
    (Bypass.main (sampleWorld (some "/opt/app".toList) none 1000 true 256)).2
      = Outcome.exit 1 ∧
    execs (Bypass.main (sampleWorld (some "/opt/app".toList) none 1000 true 256)).1 = [] ∧
    setenvs (Bypass.main (sampleWorld (some "/opt/app".toList) none 1000 true 256)).1 = [] :=
  copy_failure_is_fatal (sampleWorld (some "/opt/app".toList) none 1000 true 256)
    (by decide) (by decide)

/-- C3, as amended: for every bundle root of at most 4056 bytes, whenever
`is_noexec_mount` returns 0 (the mount query failed or reported the mount as
executable), the Bypass Launcher performs no mkdir and no copy, sets
`LD_LIBRARY_PATH` to the root followed by `/usr/lib`, and makes exactly one exec
attempt, of the root followed by `/usr/bin/python3` with the script argument the
root followed by `/usr/share/hosts-studio/hosts_studio.py`. -/
theorem executes_in_place (w : World)
    (hlen : (Bypass.here w).length ≤ 4056)
    (hq : (Bypass.is_noexec_mount w (Bypass.appdir (Bypass.here w))).2 = false) :
    mkdirs (Bypass.main w).1 = [] ∧
    copies (Bypass.main w).1 = [] ∧
    setenvs (Bypass.main w).1
      = [Event.setenv "LD_LIBRARY_PATH".toList (Bypass.here w ++ "/usr/lib".toList) 1] ∧
    execs (Bypass.main w).1
      = [Event.execl (Bypass.here w ++ "/usr/bin/python3".toList)
          ["python3".toList,
           Bypass.here w ++ "/usr/share/hosts-studio/hosts_studio.py".toList]] := by
  have ha : Bypass.appdir (Bypass.here w) = Bypass.here w :=
    snprintf_of_le _ _ (by simp [Bypass.MAX_PATH]; omega)
  have hpy : Bypass.python_path (Bypass.here w) = Bypass.here w ++ "/usr/bin/python3".toList :=
    snprintf_of_le _ _ (by simp [Bypass.MAX_PATH]; omega)
  have hsc : Bypass.script_path (Bypass.here w)
      = Bypass.here w ++ "/usr/share/hosts-studio/hosts_studio.py".toList :=
    snprintf_of_le _ _ (by simp [Bypass.MAX_PATH]; omega)
  have hld : Bypass.ld_path (Bypass.here w) = Bypass.here w ++ "/usr/lib".toList :=
    snprintf_of_le _ _ (by simp [Bypass.MAX_PATH]; omega)
  obtain ⟨qe, qm, qs, qc⟩ := query_events w (Bypass.appdir (Bypass.here w))
  obtain ⟨le, lm, ls, lc⟩ := launch_events w (Bypass.appdir (Bypass.here w))
  rw [main_of_not_noexec w hq]
  rw [ha] at le lm ls lc
  rw [hpy, hsc] at le
  rw [hld] at ls
  refine ⟨?_, ?_, ?_, ?_⟩
  · unfold mkdirs at qm lm ⊢
    rw [List.filter_append, qm, ha, lm]; rfl
  · unfold copies at qc lc ⊢
    rw [List.filter_append, qc, ha, lc]; rfl
  · unfold setenvs at qs ls ⊢
    rw [List.filter_append, qs, ha, ls]; rfl
  · unfold execs at qe le ⊢
    rw [List.filter_append, qe, ha, le]; rfl

/-- Witness of C3 as amended: bundle root `/opt/app` on a mount reported as
executable. -/
theorem executes_in_place_witness :
    mkdirs (Bypass.main (sampleWorld (some "/opt/app".toList) none 1000 false 0)).1 = [] ∧
    copies (Bypass.main (sampleWorld (some "/opt/app".toList) none 1000 false 0)).1 = [] ∧
    setenvs (Bypass.main (sampleWorld (some "/opt/app".toList) none 1000 false 0)).1
      = [Event.setenv "LD_LIBRARY_PATH".toList "/opt/app/usr/lib".toList 1] ∧
    execs (Bypass.main (sampleWorld (some "/opt/app".toList) none 1000 false 0)).1
      = [Event.execl "/opt/app/usr/bin/python3".toList
          ["python3".toList, "/opt/app/usr/share/hosts-studio/hosts_studio.py".toList]] :=
  executes_in_place (sampleWorld (some "/opt/app".toList) none 1000 false 0)
    (by decide) (by decide)

/-- C3 fails as stated: with `APPDIR` of 4090 bytes on a mount reported as
executable, the one exec attempt of the Bypass Launcher is not the exec of the
root followed by `/usr/bin/python3`. -/
theorem long_root_not_executed_in_place :
    (Bypass.is_noexec_mount (sampleWorld (some (List.replicate 4090 'a')) none 1000 false 0)
      (Bypass.appdir
        (Bypass.here (sampleWorld (some (List.replicate 4090 'a')) none 1000 false 0)))).2
      = false ∧
    execs (Bypass.main (sampleWorld (some (List.replicate 4090 'a')) none 1000 false 0)).1
      ≠ [Event.execl (List.replicate 4090 'a' ++ "/usr/bin/python3".toList)
          ["python3".toList,
           List.replicate 4090 'a' ++ "/usr/share/hosts-studio/hosts_studio.py".toList]] := by
  generalize hr : List.replicate 4090 'a' = r
  have hlen : r.length = 4090 := by rw [← hr, List.length_replicate]
  have hq : (Bypass.is_noexec_mount (sampleWorld (some r) none 1000 false 0)
      (Bypass.appdir (Bypass.here (sampleWorld (some r) none 1000 false 0)))).2 = false := rfl
  refine ⟨hq, ?_⟩
  obtain ⟨qe, -, -, -⟩ := query_events (sampleWorld (some r) none 1000 false 0)
    (Bypass.appdir (Bypass.here (sampleWorld (some r) none 1000 false 0)))
  obtain ⟨le, -, -, -⟩ := launch_events (sampleWorld (some r) none 1000 false 0)
    (Bypass.appdir (Bypass.here (sampleWorld (some r) none 1000 false 0)))
  rw [main_of_not_noexec _ hq]
  unfold execs at qe le ⊢
  rw [List.filter_append, qe, le, List.nil_append]
  intro he
  have hp : Bypass.python_path (Bypass.appdir (Bypass.here (sampleWorld (some r) none 1000 false 0)))
      = r ++ "/usr/bin/python3".toList := by
    injection he with h1 _
    injection h1
  have hl := congrArg List.length hp
  simp [Bypass.python_path, snprintf_length, Bypass.MAX_PATH, hlen] at hl
  omega

theorem temp_dir_head (pid : Int) (h : -2147483648 ≤ pid ∧ pid ≤ 2147483647) :
    (Bypass.temp_dir pid).head? = some '/' := by
  rw [temp_dir_eq pid h]
  rfl

theorem temp_dir_no_apostrophe (pid : Int) (h : -2147483648 ≤ pid ∧ pid ≤ 2147483647) :
    Char.ofNat 39 ∉ Bypass.temp_dir pid := by
  rw [temp_dir_eq pid h]
  intro hm
  rcases List.mem_append.mp hm with h1 | h1
  · revert h1
    decide
  · exact fmtInt_no_apostrophe pid h1

theorem cpCmd_onto_itself (t : CStr) (h : t.length ≤ 29) :
    Bypass.cpCmd (Bypass.copy_src t) t = selfCopyCmd t := by
  have hs : Bypass.copy_src t = t ++ "/usr".toList :=
    snprintf_of_le _ _ (by simp [Bypass.MAX_PATH]; omega)
  rw [hs]
  have hc : Bypass.cpCmd (t ++ "/usr".toList) t
      = "cp -r \x27".toList ++ (t ++ "/usr".toList) ++ "\x27 \x27".toList ++ t
          ++ "\x27".toList :=
    snprintf_of_le _ _ (by simp [Bypass.MAX_PATH]; omega)
  rw [hc]
  simp [selfCopyCmd]

/-- When the copy into the staging directory returns 0, the bundle root is
not the staging directory: `cp` would have refused to copy `usr` onto itself. -/
theorem root_ne_staging (w : World)
    (hc : (Bypass.copy_directory w (Bypass.copy_src (Bypass.appdir (Bypass.here w)))
            (Bypass.temp_dir w.pid)).2 = 0) :
    Bypass.here w ≠ Bypass.temp_dir w.pid ∧
    Bypass.appdir (Bypass.here w) ≠ Bypass.temp_dir w.pid := by
  have hlen := temp_dir_length w.pid w.pid_range
  have hlaw := w.cp_onto_itself (Bypass.temp_dir w.pid) (temp_dir_head w.pid w.pid_range)
    (temp_dir_no_apostrophe w.pid w.pid_range)
  have key : Bypass.appdir (Bypass.here w) ≠ Bypass.temp_dir w.pid := by
    intro he
    rw [he] at hc
    have hs : w.system (Bypass.cpCmd (Bypass.copy_src (Bypass.temp_dir w.pid))
        (Bypass.temp_dir w.pid)) = 0 := hc
    rw [cpCmd_onto_itself _ hlen] at hs
    exact hlaw hs
  refine ⟨fun he => key ?_, key⟩
  rw [he]
  exact snprintf_of_le _ _ (by simp [Bypass.MAX_PATH]; omega)

/-- C2: when `is_noexec_mount` reports noexec and the copy succeeds, the Bypass
Launcher creates exactly one staging directory, named `/tmp/hosts-studio-`
followed by the process id in decimal, sets `LD_LIBRARY_PATH` to the staging
directory followed by `/usr/lib`, and its only exec attempt is of the staging
directory followed by `/usr/bin/python3`, with the script argument the staging
directory followed by `/usr/share/hosts-studio/hosts_studio.py`; none of the
paths the run sets or execs is rooted at the bundle root `r`, whether `r` is
taken as the value `here` points to or as its copy in `appdir`. -/
theorem executes_from_staging (w : World)
    (hq : (Bypass.is_noexec_mount w (Bypass.appdir (Bypass.here w))).2 = true)
    (hc : (Bypass.copy_directory w (Bypass.copy_src (Bypass.appdir (Bypass.here w)))
            (Bypass.temp_dir w.pid)).2 = 0) :
    mkdirs (Bypass.main w).1
      = [Event.mkdir ("/tmp/hosts-studio-".toList ++ fmtInt w.pid) 0o755] ∧
    setenvs (Bypass.main w).1
      = [Event.setenv "LD_LIBRARY_PATH".toList
          (("/tmp/hosts-studio-".toList ++ fmtInt w.pid) ++ "/usr/lib".toList) 1] ∧
    execs (Bypass.main w).1
      = [Event.execl (("/tmp/hosts-studio-".toList ++ fmtInt w.pid) ++ "/usr/bin/python3".toList)
          ["python3".toList,
           ("/tmp/hosts-studio-".toList ++ fmtInt w.pid)
             ++ "/usr/share/hosts-studio/hosts_studio.py".toList]] ∧
    (∀ r, r = Bypass.here w ∨ r = Bypass.appdir (Bypass.here w) →
      (∀ path args, Event.execl path args ∈ (Bypass.main w).1 →
        path ≠ r ++ "/usr/bin/python3".toList ∧
        r ++ "/usr/share/hosts-studio/hosts_studio.py".toList ∉ args) ∧
      (∀ name value o, Event.setenv name value o ∈ (Bypass.main w).1 →
        value ≠ r ++ "/usr/lib".toList)) := by
  have ht := temp_dir_eq w.pid w.pid_range
  have htl := temp_dir_length w.pid w.pid_range
  have hpy : Bypass.python_path (Bypass.temp_dir w.pid)
      = Bypass.temp_dir w.pid ++ "/usr/bin/python3".toList :=
    snprintf_of_le _ _ (by simp [Bypass.MAX_PATH]; omega)
  have hsc : Bypass.script_path (Bypass.temp_dir w.pid)
      = Bypass.temp_dir w.pid ++ "/usr/share/hosts-studio/hosts_studio.py".toList :=
    snprintf_of_le _ _ (by simp [Bypass.MAX_PATH]; omega)
  have hld : Bypass.ld_path (Bypass.temp_dir w.pid)
      = Bypass.temp_dir w.pid ++ "/usr/lib".toList :=
    snprintf_of_le _ _ (by simp [Bypass.MAX_PATH]; omega)
  obtain ⟨qe, qm, qs, -⟩ := query_events w (Bypass.appdir (Bypass.here w))
  obtain ⟨le, lm, ls, -⟩ := launch_events w (Bypass.temp_dir w.pid)
  rw [hpy, hsc] at le
  rw [hld] at ls
  have hne := root_ne_staging w hc
  have hS : setenvs (Bypass.main w).1
      = [Event.setenv "LD_LIBRARY_PATH".toList
          (Bypass.temp_dir w.pid ++ "/usr/lib".toList) 1] := by
    rw [main_of_staged w hq hc]
    unfold setenvs at qs ls ⊢
    simp only [List.filter_append, qs, ls, Bypass.copy_directory]
    simp
  have hE : execs (Bypass.main w).1
      = [Event.execl (Bypass.temp_dir w.pid ++ "/usr/bin/python3".toList)
          ["python3".toList,
           Bypass.temp_dir w.pid ++ "/usr/share/hosts-studio/hosts_studio.py".toList]] := by
    rw [main_of_staged w hq hc]
    unfold execs at qe le ⊢
    simp only [List.filter_append, qe, le, Bypass.copy_directory]
    simp
  refine ⟨?_, ?_, ?_, ?_⟩
  · rw [main_of_staged w hq hc, ← ht]
    unfold mkdirs at qm lm ⊢
    simp only [List.filter_append, qm, lm, Bypass.copy_directory]
    simp
  · rw [← ht]; exact hS
  · rw [← ht]; exact hE
  · intro r hr
    have hrt : r ≠ Bypass.temp_dir w.pid := by
      rcases hr with hr | hr
      · rw [hr]; exact hne.1
      · rw [hr]; exact hne.2
    constructor
    · intro path args hm
      have hm2 : Event.execl path args ∈ execs (Bypass.main w).1 := by
        unfold execs
        exact List.mem_filter.mpr ⟨hm, rfl⟩
      rw [hE, List.mem_singleton] at hm2
      injection hm2 with hp ha
      subst hp
      subst ha
      refine ⟨fun he => hrt (List.append_cancel_right he).symm, ?_⟩
      intro hin
      rcases List.mem_cons.mp hin with h1 | h1
      · have hl := congrArg List.length h1
        simp at hl
      · rw [List.mem_singleton] at h1
        exact hrt (List.append_cancel_right h1)
    · intro name value o hm
      have hm2 : Event.setenv name value o ∈ setenvs (Bypass.main w).1 := by
        unfold setenvs
        exact List.mem_filter.mpr ⟨hm, rfl⟩
      rw [hS, List.mem_singleton] at hm2
      injection hm2 with _ hv _
      subst hv
      exact fun he => hrt (List.append_cancel_right he).symm

/-- Witness of C2: bundle root `/opt/app` on a noexec mount, process id 1234,
with a `cp` that succeeds. -/
theorem executes_from_staging_witness :
    mkdirs (Bypass.main (sampleWorld (some "/opt/app".toList) none 1000 true 0)).1
      = [Event.mkdir "/tmp/hosts-studio-1234".toList 0o755] ∧
    setenvs (Bypass.main (sampleWorld (some "/opt/app".toList) none 1000 true 0)).1
      = [Event.setenv "LD_LIBRARY_PATH".toList "/tmp/hosts-studio-1234/usr/lib".toList 1] ∧
    execs (Bypass.main (sampleWorld (some "/opt/app".toList) none 1000 true 0)).1
      = [Event.execl "/tmp/hosts-studio-1234/usr/bin/python3".toList
          ["python3".toList,
           "/tmp/hosts-studio-1234/usr/share/hosts-studio/hosts_studio.py".toList]] ∧
    (∀ path args,
      Event.execl path args
          ∈ (Bypass.main (sampleWorld (some "/opt/app".toList) none 1000 true 0)).1 →
        path ≠ "/opt/app".toList ++ "/usr/bin/python3".toList ∧
        "/opt/app".toList ++ "/usr/share/hosts-studio/hosts_studio.py".toList ∉ args) :=
  ⟨(executes_from_staging (sampleWorld (some "/opt/app".toList) none 1000 true 0)
      (by decide) (by decide)).1,
   (executes_from_staging (sampleWorld (some "/opt/app".toList) none 1000 true 0)
      (by decide) (by decide)).2.1,
   (executes_from_staging (sampleWorld (some "/opt/app".toList) none 1000 true 0)
      (by decide) (by decide)).2.2.1,
   ((executes_from_staging (sampleWorld (some "/opt/app".toList) none 1000 true 0)
      (by decide) (by decide)).2.2.2 "/opt/app".toList (Or.inl rfl)).1⟩

/-- With `APPDIR` equal to the staging directory of the run, the copy does not
succeed and the run ends in the copy-failure exit, with no exec attempt. -/
theorem staging_as_root_fails_copy :
    (Bypass.copy_directory (sampleWorld (some "/tmp/hosts-studio-1234".toList) none 1000 true 0)
      (Bypass.copy_src (Bypass.appdir
        (Bypass.here (sampleWorld (some "/tmp/hosts-studio-1234".toList) none 1000 true 0))))
      (Bypass.temp_dir
        (sampleWorld (some "/tmp/hosts-studio-1234".toList) none 1000 true 0).pid)).2 = 256 ∧
    (Bypass.main (sampleWorld (some "/tmp/hosts-studio-1234".toList) none 1000 true 0)).2
      = Outcome.exit 1 ∧
    execs (Bypass.main (sampleWorld (some "/tmp/hosts-studio-1234".toList) none 1000 true 0)).1
      = [] := by
  decide

/-! ## Mount detection -/

/-- What `is_noexec_mount` computes over a mount table: whether some line of
the mount listing contains the mount directory backing the path as a substring
and also contains `noexec`. -/
theorem is_noexec_mount_over_table (table : List Mount) (path : CStr) (b : Mount)
    (hb : backing table path = some b) (hpl : path.length ≤ 4000)
    (hdl : b.dir.length ≤ 4000) (hn : '\n' ∉ b.dir) :
    (Bypass.is_noexec_mount (mountWorld table) path).2
      = table.any fun m => hasSub b.dir m.line && hasSub "noexec".toList m.line := by
  have hdf : Bypass.dfCmd path
      = "df ".toList ++ path ++ " | tail -1 | awk \x27\x7bprint $6\x7d\x27".toList :=
    snprintf_of_le _ _ (by simp [Bypass.MAX_PATH]; omega)
  have hgrep : Bypass.grepCmd b.dir
      = "mount | grep \x27".toList ++ b.dir ++ "\x27 | grep -q noexec".toList :=
    snprintf_of_le _ _ (by simp [Bypass.MAX_PATH]; omega)
  have hpo : (mountWorld table).popen (Bypass.dfCmd path) = some (b.dir ++ ['\n']) := by
    show shellPopen table (Bypass.dfCmd path) = _
    rw [hdf]
    unfold shellPopen
    rw [between_append]
    simp only [hb]
    rfl
  have hfg : fgets Bypass.MAX_PATH (b.dir ++ ['\n']) = some (b.dir ++ ['\n']) := by
    have ha : fgetsAux (Bypass.MAX_PATH - 1) (b.dir ++ ['\n']) = b.dir ++ ['\n'] :=
      fgetsAux_line _ _ hn (by simp [Bypass.MAX_PATH]; omega)
    cases hd : b.dir with
    | nil => rfl
    | cons c cs =>
      rw [hd] at ha
      show some (fgetsAux (Bypass.MAX_PATH - 1) (c :: cs ++ ['\n'])) = _
      rw [ha]
  have hsy : (mountWorld table).system (Bypass.grepCmd b.dir)
      = if (table.any fun m => hasSub b.dir m.line && hasSub "noexec".toList m.line)
        then 0 else 256 := by
    show shellSystem table (Bypass.grepCmd b.dir) = _
    rw [hgrep]
    unfold shellSystem
    rw [between_append]
  unfold Bypass.is_noexec_mount
  rw [hpo]
  simp only [hfg, cutNewline_line _ hn, hsy]
  cases table.any fun m => hasSub b.dir m.line && hasSub "noexec".toList m.line <;> simp

/-- Where the substring search does no harm: with `/opt` mounted `noexec`, the
answer of `is_noexec_mount` for `/opt/app` is that of the mount table. -/
theorem noexec_reported_for_noexec_opt :
    (backing rootExecOptNoexec "/opt/app".toList).map Mount.dir = some "/opt".toList ∧
    backingNoexec rootExecOptNoexec "/opt/app".toList = true ∧
    (Bypass.is_noexec_mount (mountWorld rootExecOptNoexec) "/opt/app".toList).2 = true := by
  decide

/-- C9 fails on the code: with `/` mounted with execution allowed and `/tmp`
mounted `noexec`, the filesystem backing `/opt/app` is `/`, which does not have
the `noexec` option, and yet `is_noexec_mount` returns true for `/opt/app`. -/
theorem noexec_reported_for_exec_root :
    (backing rootExecTmpNoexec "/opt/app".toList).map Mount.dir = some "/".toList ∧
    backingNoexec rootExecTmpNoexec "/opt/app".toList = false ∧
    (Bypass.is_noexec_mount (mountWorld rootExecTmpNoexec) "/opt/app".toList).2 = true := by
  decide

end HostsStudio
